import Mathlib

/-!
Verification development for the Clinical Pattern Analysis Engine of the
THOR_API repository.  The engine lives in the Next.js dashboard API route
(two revisions of the same handler are present in the sources); the parts
embedded here are the pure analysis functions `analyzePNESIndicators` and
`calculateMedicalInsights`, together with the record normalisation that
feeds them.  Numbers are modelled by `ℚ`/`ℤ`/`ℕ`; the single place where
JS produces `NaN` (an unguarded `0/0`) is modelled by `Option ℚ` with
`none` standing for `NaN`.
-/

namespace ThorApi

/-- Models JS `Math.round`: round half toward positive infinity. -/
def jsRound (q : ℚ) : ℤ := ⌊q + 1/2⌋

/-- Models the presentation rounding `Math.round(x * 10) / 10` used on every
numeric field of the medical-insights payload. -/
def round1 (q : ℚ) : ℚ := (jsRound (q * 10) : ℚ) / 10

/-- Same rounding lifted over the `NaN` model: `Math.round(NaN*10)/10 = NaN`. -/
def round1Opt (q : Option ℚ) : Option ℚ := q.map round1

/-- Models the guarded-average pattern `len > 0 ? sum/len : 0` that the source
uses for every mean. -/
def jsAvg (l : List ℚ) : ℚ := if l.length = 0 then 0 else l.sum / l.length

/-- Models `intervals.length > 0 ? Math.min(...intervals) : 0`. -/
def jsMin : List ℤ → ℤ
  | [] => 0
  | x :: xs => xs.foldl min x

/-- Models `intervals.length > 0 ? Math.max(...intervals) : 0`. -/
def jsMax : List ℤ → ℤ
  | [] => 0
  | x :: xs => xs.foldl max x

/-- Characters before the first `T`, as a string: models
`timestamp.split('T')[0]` (day-key extraction). On a string without `T` it
returns the whole string, on `""` it returns `""`, exactly as in JS. -/
def dayOf (ts : String) : String := String.mk (ts.data.takeWhile (fun ch => ch ≠ 'T'))

/-- Accumulator-passing splitter; models JS `String.prototype.split` with a
single-character separator. -/
def splitCharAux (c : Char) : List Char → List Char → List String
  | acc, [] => [String.mk acc.reverse]
  | acc, x :: xs =>
    if x = c then String.mk acc.reverse :: splitCharAux c [] xs
    else splitCharAux c (x :: acc) xs

/-- Models JS `s.split(c)` for a one-character separator `c`:
`"a:b".split(':') = ["a","b"]`, `"ab".split(':') = ["ab"]`,
`":b".split(':') = ["","b"]`. -/
def splitChar (c : Char) (s : String) : List String := splitCharAux c [] s.data

/-- Reads a decimal digit string left to right; any non-digit character makes
the whole parse fail (JS `Number` on such a component gives `NaN`). -/
def digitsToNatAux : ℕ → List Char → Option ℕ
  | acc, [] => some acc
  | acc, ch :: rest =>
    if '0' ≤ ch ∧ ch ≤ '9' then digitsToNatAux (10 * acc + (ch.toNat - Char.toNat '0')) rest
    else none

/-- Models JS `Number(s)` on the date/time components produced by the
`YYYY-MM-DD` / `HH:MM:SS` formats: `Number("") = 0`, a digit string parses as
a natural number (leading zeros allowed), anything containing a non-digit is
`NaN` (modelled `none`). -/
def jsNumber (s : String) : Option ℤ :=
  if s.data.isEmpty then some 0 else (digitsToNatAux 0 s.data).map (fun n => (n : ℤ))

/-- Days from the civil epoch 1970-01-01 for a proleptic-Gregorian calendar
date, the day-number computation underlying the JS `Date` time value.  Uses
floor division so it is correct for all integer years. -/
def daysFromCivil (y m d : ℤ) : ℤ :=
  let yy := if m ≤ 2 then y - 1 else y
  let era := Int.fdiv yy 400
  let yoe := yy - era * 400
  let mp := Int.fmod (m + 9) 12
  let doy := Int.fdiv (153 * mp + 2) 5 + d - 1
  let doe := yoe * 365 + Int.fdiv yoe 4 - Int.fdiv yoe 100 + doy
  era * 146097 + doe - 719468

/-- Day number of `new Date(year, monthIndex, day)`: months outside `0..11`
roll the year over (ECMAScript `MakeDay`), and `0 ≤ year ≤ 99` is mapped to
`1900 + year` as the `Date` constructor does. -/
def makeDay (year monthIndex day : ℤ) : ℤ :=
  let y := if 0 ≤ year ∧ year ≤ 99 then year + 1900 else year
  let ym := y + Int.fdiv monthIndex 12
  let mn := Int.fmod monthIndex 12
  daysFromCivil ym (mn + 1) 1 + (day - 1)

/-- Millisecond time value of `new Date(year, monthIndex, day, h, mi, s)`
for a host whose UTC offset is zero: out-of-range time fields simply roll
over through plain millisecond arithmetic (ECMAScript `MakeTime`/`MakeDate`).
The engine's timestamps carry no zone, so this is the timezone-naive reading
the spec prescribes; the host-zone dependence of the real constructor is the
subject of the C9 analysis. -/
def localEpochMs (year monthIndex day h mi s : ℤ) : ℤ :=
  makeDay year monthIndex day * 86400000 + h * 3600000 + mi * 60000 + s * 1000

/-- Embeds the revision-2 helper `parseLocalTime` (source lines 1144-1153):
split on `T` (fewer than two parts returns `0`), split the date on `-` and the
time on `:` (an empty time part falls back to `"00:00:00"`), `Number`-parse
the first three components of each (a missing or unparseable component is
`NaN`, making the whole result `NaN`, modelled `none`), and build
`new Date(year, month - 1, day, hours, minutes, seconds).getTime()`. -/
def parseLocalTime (ts : String) : Option ℤ :=
  match splitChar 'T' ts with
  | dpart :: tpart :: _ =>
    let tp := if tpart = "" then "00:00:00" else tpart
    let dc := (splitChar '-' dpart).map jsNumber
    let tc := (splitChar ':' tp).map jsNumber
    match dc.getD 0 none, dc.getD 1 none, dc.getD 2 none,
          tc.getD 0 none, tc.getD 1 none, tc.getD 2 none with
    | some y, some mo, some d, some h, some mi, some s =>
        some (localEpochMs y (mo - 1) d h mi s)
    | _, _, _, _, _, _ => none
  | _ => some 0

/-- Normalised seizure event as built by the handler's record builder
(`timestamp` is `Date + "T" + Time`, `duration_seconds` is `parseInt || 0`,
`hour_of_day` is `parseInt(time.split(':')[0]) || 0`, the two flags are the
strict `=== 'True'` comparisons).  The pass-through `day_of_week` field is
not consumed by the analysis functions and is omitted. -/
structure SeizureRecord where
  timestamp : String
  duration_seconds : ℤ
  hour_of_day : ℤ
  period : Bool
  food_eaten : Bool
deriving DecidableEq

/-- Raw pain row as the analysis functions read it: `date` is the
`p.Date || p.date` field, `pain` is the value of `parseFloat(p.Pain)` with
`none` modelling `NaN` (missing or unparseable). -/
structure PainRecord where
  date : String
  pain : Option ℚ
deriving DecidableEq

/-- Where the source applies `parseFloat(p.Pain) || 0`: `NaN` collapses to 0
and the record still counts toward the average's denominator. -/
def painVal (p : PainRecord) : ℚ := p.pain.getD 0

/-- Distinct seizure calendar days (source lines 156-158 and 317/1121):
`new Set(seizureRecords.map(s => s.timestamp?.split('T')[0]).filter(Boolean))`.
`dedup` realises set semantics; the empty day-key is dropped by
`filter(Boolean)`. -/
def seizureDayList (ss : List SeizureRecord) : List String :=
  ((ss.map (fun s => dayOf s.timestamp)).filter (fun d => d ≠ "")).dedup

/-- Distinct pain-record days (source line 159):
`new Set(painRecords.map(p => p.date || p.Date).filter(Boolean))`. -/
def painDayList (ps : List PainRecord) : List String :=
  ((ps.map (fun p => p.date)).filter (fun d => d ≠ "")).dedup

/-- Source line 161: `Array.from(seizureDates).filter(d => painDates.has(d)).length`
— the number of distinct seizure days that carry at least one pain record. -/
def commonPainSeizureDays (ss : List SeizureRecord) (ps : List PainRecord) : ℕ :=
  ((seizureDayList ss).filter (fun d => (painDayList ps).contains d)).length

/-- Source line 162: `(commonDates / seizureRecords.length) * 100`.  Note the
denominator is the number of seizure events — not the number of pain
records that the spec's §4.3 formula divides by. -/
def painCorrelationPercent (ss : List SeizureRecord) (ps : List PainRecord) : ℚ :=
  (commonPainSeizureDays ss ps : ℚ) / (ss.length : ℚ) * 100

/-- Indicator 1 trigger (source lines 155-172): the enclosing
`painRecords.length > 0` guard and `painCorrelationPercent > 50`. -/
def painIndicator (ss : List SeizureRecord) (ps : List PainRecord) : Bool :=
  decide (0 < ps.length) && decide (50 < painCorrelationPercent ss ps)

/-- Source line 177: `const hour = s.hour_of_day || 12` — hour 0 is falsy in
JS and silently becomes 12. -/
def effectiveHour (s : SeizureRecord) : ℤ :=
  if s.hour_of_day = 0 then 12 else s.hour_of_day

/-- Source lines 176-179: events whose effective hour satisfies
`hour >= 7 && hour <= 23` (hour 23 included). -/
def daytimeCount (ss : List SeizureRecord) : ℕ :=
  (ss.filter (fun s => decide (7 ≤ effectiveHour s) && decide (effectiveHour s ≤ 23))).length

/-- Source line 181: `(daytimeSeizures / seizureRecords.length) * 100`. -/
def daytimePercent (ss : List SeizureRecord) : ℚ :=
  (daytimeCount ss : ℚ) / (ss.length : ℚ) * 100

/-- Indicator 2 trigger (source line 182): `daytimePercent > 70`. -/
def daytimeIndicator (ss : List SeizureRecord) : Bool :=
  decide (70 < daytimePercent ss)

/-- Source lines 193-198: durations mapped through `s.duration_seconds || 0`
and kept only when strictly positive. -/
def positiveDurations (ss : List SeizureRecord) : List ℤ :=
  (ss.map (fun s => s.duration_seconds)).filter (fun d => decide (0 < d))

/-- Source line 201: arithmetic mean of the retained durations. -/
def durationMean (ds : List ℤ) : ℚ := (ds.map (fun d => (d : ℚ))).sum / (ds.length : ℚ)

/-- Source line 202: population variance of the retained durations. -/
def durationVariance (ds : List ℤ) : ℚ :=
  (ds.map (fun d => ((d : ℚ) - durationMean ds) ^ 2)).sum / (ds.length : ℚ)

/-- Indicator 3 trigger (source lines 200-206): `durations.length > 2` and
`cv > 50` where `cv = (stdDev / mean) * 100` under the source's `mean > 0`
guard.  Since `stdDev = sqrt(variance)`, for `mean > 0` the comparison
`cv > 50` is equivalent to `mean^2 < 4 * variance` (lemma
`cv_gt50_iff_sq` below), which is the decidable form used here. -/
def cvIndicator (ss : List SeizureRecord) : Bool :=
  decide (2 < (positiveDurations ss).length) &&
  decide (0 < durationMean (positiveDurations ss)) &&
  decide ((durationMean (positiveDurations ss)) ^ 2 < 4 * durationVariance (positiveDurations ss))

/-- Source line 218 / 293: `seizureRecords.filter(s => s.food_eaten === true)`. -/
def withFoodList (ss : List SeizureRecord) : List SeizureRecord :=
  ss.filter (fun s => s.food_eaten)

/-- Source line 219 / 294: `seizureRecords.filter(s => s.food_eaten === false)`. -/
def withoutFoodList (ss : List SeizureRecord) : List SeizureRecord :=
  ss.filter (fun s => !s.food_eaten)

/-- Source line 222: `(seizuresWithFood / seizureRecords.length) * 100`. -/
def foodTriggerPercent (ss : List SeizureRecord) : ℚ :=
  ((withFoodList ss).length : ℚ) / (ss.length : ℚ) * 100

/-- Indicator 4 trigger (source lines 221-223): both partitions must be
non-empty (`seizuresWithFood > 0 && seizuresWithoutFood > 0`) and the food
percentage must be above 60 or below 40.  A 0% or 100% food fraction never
triggers because one partition is empty. -/
def foodIndicator (ss : List SeizureRecord) : Bool :=
  decide (0 < (withFoodList ss).length) && decide (0 < (withoutFoodList ss).length) &&
  (decide (60 < foodTriggerPercent ss) || decide (foodTriggerPercent ss < 40))

/-- Source line 235 / 305: `seizureRecords.filter(s => s.period === true)`. -/
def periodList (ss : List SeizureRecord) : List SeizureRecord :=
  ss.filter (fun s => s.period)

/-- Source line 306: `seizureRecords.filter(s => s.period === false)`. -/
def nonPeriodList (ss : List SeizureRecord) : List SeizureRecord :=
  ss.filter (fun s => !s.period)

/-- Source line 236: `(periodRelatedSeizures / seizureRecords.length) * 100`. -/
def periodPercent (ss : List SeizureRecord) : ℚ :=
  ((periodList ss).length : ℚ) / (ss.length : ℚ) * 100

/-- Indicator 5 trigger (source line 238): `periodPercent < 20`. -/
def periodIndicator (ss : List SeizureRecord) : Bool :=
  decide (periodPercent ss < 20)

/-- Result payload of `analyzePNESIndicators`.  `risk_factors` keeps the
`indicator` name of each pushed risk-factor object; the other payload strings
(numeric strength, description, relevance note) are presentation text carried
alongside and add no information to the claims. -/
structure PNESAnalysis where
  pnes_likelihood_score : ℕ
  classification : String
  risk_factors : List String
  recommendations : List String
deriving DecidableEq

/-- Accumulated score: each indicator adds its fixed weight
(`pnesScore += 20/15/12/10/8`, source lines 171/189/213/230/245). -/
def pnesScoreOf (ss : List SeizureRecord) (ps : List PainRecord) : ℕ :=
  (if painIndicator ss ps then 20 else 0) + (if daytimeIndicator ss then 15 else 0) +
  (if cvIndicator ss then 12 else 0) + (if foodIndicator ss then 10 else 0) +
  (if periodIndicator ss then 8 else 0)

/-- Classification bands (source lines 249-252). -/
def classificationOf (score : ℕ) : String :=
  if 50 ≤ score then "HIGH"
  else if 30 ≤ score then "MODERATE"
  else if 15 ≤ score then "LOW"
  else "MINIMAL"

/-- Risk-factor names pushed in source order (lines 165/183/207/224/239). -/
def riskFactorsOf (ss : List SeizureRecord) (ps : List PainRecord) : List String :=
  (if painIndicator ss ps then ["High Anxiety/Pain Correlation"] else []) ++
  (if daytimeIndicator ss then ["Predominantly Daytime Seizures"] else []) ++
  (if cvIndicator ss then ["High Duration Variability"] else []) ++
  (if foodIndicator ss then ["Potential Environmental Trigger Pattern"] else []) ++
  (if periodIndicator ss then ["Low Hormonal Correlation"] else [])

/-- Recommendation templates selected by band only (source lines 254-275). -/
def recommendationsOf (c : String) : List String :=
  if c = "HIGH" then
    ["Consider psychological evaluation by neuropsychiatrist",
     "EEG monitoring recommended to rule out subclinical seizures",
     "Stress/anxiety assessment and management program suggested",
     "Keep detailed trigger logs (emotional events, stressors)"]
  else if c = "MODERATE" then
    ["Psychological screening recommended",
     "Continue seizure tracking with emotional/stress context",
     "Consider video-EEG monitoring if diagnosis uncertain"]
  else
    ["Continue standard epilepsy management",
     "Monitor for changes in seizure pattern",
     "Maintain detailed seizure logs"]

/-- Embeds `analyzePNESIndicators` (source lines 132-283): the explicit
early exit for an empty event collection, then the five weighted indicators,
classification and recommendations. -/
def analyzePNESIndicators (ss : List SeizureRecord) (ps : List PainRecord) : PNESAnalysis :=
  if ss.length = 0 then
    ⟨0, "MINIMAL", [], ["Insufficient data for analysis"]⟩
  else
    ⟨pnesScoreOf ss ps,
     classificationOf (pnesScoreOf ss ps),
     riskFactorsOf ss ps,
     recommendationsOf (classificationOf (pnesScoreOf ss ps))⟩

/-- Stable insertion of a record into a timestamp-sorted list: the record goes
in front of the first element that is not strictly below it, so elements with
equal timestamps keep their source order. -/
def insertByTs (a : SeizureRecord) : List SeizureRecord → List SeizureRecord
  | [] => [a]
  | b :: l => if b.timestamp < a.timestamp then b :: insertByTs a l else a :: b :: l

/-- Embeds `[...seizureRecords].sort((a, b) => a.timestamp.localeCompare(b.timestamp))`
(source line 1155).  JS `Array.prototype.sort` is stable and `localeCompare`
orders these ASCII digit/dash/colon timestamps lexicographically, so the
result is the stable sort by lexicographic timestamp, realised here as a
stable insertion sort. -/
def sortByTimestamp : List SeizureRecord → List SeizureRecord
  | [] => []
  | a :: l => insertByTs a (sortByTimestamp l)

/-- Consecutive-pair interval loop of revision 2 (source lines 1158-1169):
for each adjacent pair of the sorted list, parse both timestamps, require
`prevTime > 0 && currTime > 0 && currTime >= prevTime`, convert the delta to
hours, and keep `Math.round(hours)` when `0 < hours < 8760`.  A `NaN` parse
(modelled `none`) fails the comparisons and the pair is skipped. -/
def intervalsFrom : List SeizureRecord → List ℤ
  | [] => []
  | [_] => []
  | a :: b :: rest =>
    (match parseLocalTime a.timestamp, parseLocalTime b.timestamp with
     | some p, some c =>
       if 0 < p ∧ 0 < c ∧ p ≤ c then
         (if 0 < ((c - p : ℤ) : ℚ) / 3600000 ∧ ((c - p : ℤ) : ℚ) / 3600000 < 8760 then
           [jsRound (((c - p : ℤ) : ℚ) / 3600000)]
         else [])
       else []
     | _, _ => []) ++ intervalsFrom (b :: rest)

/-- Valid inter-seizure intervals of an event collection: sort
chronologically, then run the interval loop. -/
def seizureIntervals (ss : List SeizureRecord) : List ℤ :=
  intervalsFrom (sortByTimestamp ss)

/-- Ascending insertion for the numeric median sort. -/
def insertAsc (a : ℤ) : List ℤ → List ℤ
  | [] => [a]
  | b :: l => if b < a then b :: insertAsc a l else a :: b :: l

/-- Embeds `[...intervals].sort((a, b) => a - b)` (source line 1174). -/
def sortAsc : List ℤ → List ℤ
  | [] => []
  | a :: l => insertAsc a (sortAsc l)

/-- Source line 1175: `sortedIntervals[Math.floor(sortedIntervals.length / 2)]`
with 0 for the empty list. -/
def medianOf (l : List ℤ) : ℤ := (sortAsc l).getD ((sortAsc l).length / 2) 0

/-- Bucket counters of the inter-seizure distribution, in source order
`'0-24h', '1-3d', '3-7d', '1-2w', '2w+'` (source lines 1187-1193). -/
structure BucketCounts where
  h0to24 : ℕ
  d1to3 : ℕ
  d3to7 : ℕ
  w1to2 : ℕ
  w2plus : ℕ
deriving DecidableEq

/-- One step of the bucket classifier (source lines 1195-1201): the
`if interval <= 24 / <= 72 / <= 168 / <= 336 / else` chain incrementing
exactly one counter. -/
def bucketStep (acc : BucketCounts) (i : ℤ) : BucketCounts :=
  if i ≤ 24 then ⟨acc.h0to24 + 1, acc.d1to3, acc.d3to7, acc.w1to2, acc.w2plus⟩
  else if i ≤ 72 then ⟨acc.h0to24, acc.d1to3 + 1, acc.d3to7, acc.w1to2, acc.w2plus⟩
  else if i ≤ 168 then ⟨acc.h0to24, acc.d1to3, acc.d3to7 + 1, acc.w1to2, acc.w2plus⟩
  else if i ≤ 336 then ⟨acc.h0to24, acc.d1to3, acc.d3to7, acc.w1to2 + 1, acc.w2plus⟩
  else ⟨acc.h0to24, acc.d1to3, acc.d3to7, acc.w1to2, acc.w2plus + 1⟩

/-- The `intervals.forEach` fold over the bucket chain, starting from the
all-zero counter object. -/
def bucketCounts (l : List ℤ) : BucketCounts := l.foldl bucketStep ⟨0, 0, 0, 0, 0⟩

/-- Mean duration of the with-food partition (source lines 296-297):
`withFood.reduce((sum, s) => sum + (s.duration_seconds || 0), 0) / withFood.length`
guarded to 0 on an empty partition.  Every partition member counts toward
the denominator — zero/unknown durations are not excluded. -/
def withFoodAvg (ss : List SeizureRecord) : ℚ :=
  jsAvg ((withFoodList ss).map (fun s => (s.duration_seconds : ℚ)))

/-- Mean duration of the without-food partition (source lines 298-299). -/
def withoutFoodAvg (ss : List SeizureRecord) : ℚ :=
  jsAvg ((withoutFoodList ss).map (fun s => (s.duration_seconds : ℚ)))

/-- Mean duration of the during-period partition (source lines 308-309). -/
def periodAvg (ss : List SeizureRecord) : ℚ :=
  jsAvg ((periodList ss).map (fun s => (s.duration_seconds : ℚ)))

/-- Mean duration of the non-period partition (source lines 310-311). -/
def nonPeriodAvg (ss : List SeizureRecord) : ℚ :=
  jsAvg ((nonPeriodList ss).map (fun s => (s.duration_seconds : ℚ)))

/-- Trend label (source line 302): `difference > 0 ? 'longer' : difference < 0 ? 'shorter' : 'similar'`. -/
def trendOf (d : ℚ) : String :=
  if 0 < d then "longer" else if d < 0 then "shorter" else "similar"

/-- Source line 314 / 1118: `(periodSeizures.length / seizureRecords.length) * 100`
with no emptiness guard.  On an empty event collection this is the JS float
`0/0 = NaN`, modelled `none`; otherwise the exact rational. -/
def periodPercentageRaw (ss : List SeizureRecord) : Option ℚ :=
  if ss.length = 0 then none
  else some (((periodList ss).length : ℚ) / (ss.length : ℚ) * 100)

/-- Pain records whose day is a seizure day (source line 324):
`painRecords.filter(p => seizureDates.has(p.Date || p.date))`. -/
def painOnSeizureList (ss : List SeizureRecord) (ps : List PainRecord) : List PainRecord :=
  ps.filter (fun p => (seizureDayList ss).contains p.date)

/-- Pain records whose day is not a seizure day (source line 325). -/
def painOffSeizureList (ss : List SeizureRecord) (ps : List PainRecord) : List PainRecord :=
  ps.filter (fun p => !((seizureDayList ss).contains p.date))

/-- Source lines 327-330: mean of `parseFloat(p.Pain) || 0` over the pain
records on seizure days, 0 when there are none (both the outer
`painRecords.length > 0` guard and the inner `painOnSeizure.length > 0` guard
collapse to the same 0 default). -/
def avgPainSeizureDays (ss : List SeizureRecord) (ps : List PainRecord) : ℚ :=
  jsAvg ((painOnSeizureList ss ps).map painVal)

/-- Source lines 332-334: mean pain over the non-seizure-day records. -/
def avgPainNonSeizureDays (ss : List SeizureRecord) (ps : List PainRecord) : ℚ :=
  jsAvg ((painOffSeizureList ss ps).map painVal)

/-- Source line 337: `(painOnSeizureDays / (painRecords?.length || 1)) * 100`
— the `|| 1` turns the empty-pain denominator into 1, so zero pain records
give 0 rather than `NaN`. -/
def correlationPercentageRaw (ss : List SeizureRecord) (ps : List PainRecord) : ℚ :=
  ((painOnSeizureList ss ps).length : ℚ) / (if ps.length = 0 then 1 else (ps.length : ℚ)) * 100

/-- `medical_insights.food_impact` payload (source lines 416-423). -/
structure FoodImpact where
  with_food_avg : ℚ
  without_food_avg : ℚ
  difference : ℚ
  food_eaters : ℕ
  non_eaters : ℕ
  trend : String
deriving DecidableEq

/-- `medical_insights.menstrual_analysis` payload (source lines 424-430).
`period_percentage` is `Option ℚ` because the source value is `NaN` for an
empty event collection. -/
structure MenstrualAnalysis where
  period_avg_duration : ℚ
  non_period_avg_duration : ℚ
  difference : ℚ
  period_seizure_count : ℕ
  period_percentage : Option ℚ
deriving DecidableEq

/-- `medical_insights.pain_correlation` payload (source lines 431-436). -/
structure PainCorrelation where
  avg_pain_seizure_days : ℚ
  avg_pain_non_seizure_days : ℚ
  days_with_pain : ℕ
  correlation_percentage : ℚ
deriving DecidableEq

/-- `medical_insights.inter_seizure_intervals` payload (source lines 437-443). -/
structure InterSeizureIntervals where
  min_interval : ℤ
  max_interval : ℤ
  avg_interval : ℚ
  median_interval : ℤ
  intervals : List ℤ
deriving DecidableEq

/-- Result of `calculateMedicalInsights` restricted to the derived values the
claims are about: the four summary objects plus the bucket counts behind the
`inter_seizure_distribution` chart series (the remaining chart series are
element-wise re-arrangements of the same data). -/
structure MedicalInsights where
  food_impact : FoodImpact
  menstrual_analysis : MenstrualAnalysis
  pain_correlation : PainCorrelation
  inter_seizure_intervals : InterSeizureIntervals
  inter_seizure_distribution : BucketCounts
deriving DecidableEq

/-- Embeds `calculateMedicalInsights` (source lines 285-452 / 1089-1273,
using the revision-2 interval computation): every numeric summary field is
rounded with `Math.round(x * 10) / 10`, counts and the interval list are
passed through unrounded, and `intervals` is `intervals.slice(0, 20)` — the
first twenty valid intervals in chronological order. -/
def calculateMedicalInsights (ss : List SeizureRecord) (ps : List PainRecord) : MedicalInsights :=
  ⟨⟨round1 (withFoodAvg ss), round1 (withoutFoodAvg ss),
    round1 (withFoodAvg ss - withoutFoodAvg ss),
    (withFoodList ss).length, (withoutFoodList ss).length,
    trendOf (withFoodAvg ss - withoutFoodAvg ss)⟩,
   ⟨round1 (periodAvg ss), round1 (nonPeriodAvg ss),
    round1 (periodAvg ss - nonPeriodAvg ss),
    (periodList ss).length, round1Opt (periodPercentageRaw ss)⟩,
   ⟨round1 (avgPainSeizureDays ss ps), round1 (avgPainNonSeizureDays ss ps),
    (painOnSeizureList ss ps).length, round1 (correlationPercentageRaw ss ps)⟩,
   ⟨jsMin (seizureIntervals ss), jsMax (seizureIntervals ss),
    round1 (jsAvg ((seizureIntervals ss).map (fun i => (i : ℚ)))),
    medianOf (seizureIntervals ss), (seizureIntervals ss).take 20⟩,
   bucketCounts (seizureIntervals ss)⟩

/-- Revision-1 record builder's timestamp (source lines 711-715):
`const timestamp = date + 'T' + time + '.000Z'` — the string is branded with
the ISO-8601 UTC designator. -/
def mkTimestampRev1 (date time : String) : String := date ++ "T" ++ time ++ ".000Z"

/-- Revision-2 record builder's timestamp (source lines 1531-1535):
`const timestamp = date + 'T' + time`, deliberately without a zone
designator ("Create timestamp as local time (not UTC)"). -/
def mkTimestampRev2 (date time : String) : String := date ++ "T" ++ time

/-- An ISO-8601 date-time string denotes a UTC instant exactly when it ends
in the designator `Z`; without it the value is zone-free (timezone-naive). -/
def hasUTCDesignator (ts : String) : Bool := decide (ts.data.getLast? = some 'Z')

/-- Follows the spec's words (§4.3), for comparison with the source:
`correlation_percentage = (count of pain records on seizure days) /
(total pain records) × 100`, defined as 0 for zero pain records. -/
def specCorrelationPercentage (ss : List SeizureRecord) (ps : List PainRecord) : ℚ :=
  if ps.length = 0 then 0
  else ((painOnSeizureList ss ps).length : ℚ) / (ps.length : ℚ) * 100

/-- Follows the spec's words (§4.6 indicator table), for comparison with the
source: the fraction of events with `hour_of_day` in the half-open range
`[7, 23)`, as a percentage. -/
def specDaytimePercent (ss : List SeizureRecord) : ℚ :=
  ((ss.filter (fun s => decide (7 ≤ s.hour_of_day) && decide (s.hour_of_day < 23))).length : ℚ) /
    (ss.length : ℚ) * 100

/-- Follows the spec's words (§4.6 indicator table), for comparison with the
source: the food-skew trigger fires whenever the food fraction deviates from
50% by more than 10 points, with no further requirement — including a 0% or
100% food fraction. -/
def specFoodSkewTrigger (ss : List SeizureRecord) : Bool :=
  decide (60 < foodTriggerPercent ss) || decide (foodTriggerPercent ss < 40)

/-- Follows the spec's words (§3 invariant 1), for comparison with the
source: the mean that excludes non-positive entries from both numerator and
denominator, with 0 for an empty filtered set. -/
def specPositiveMean (l : List ℤ) : ℚ :=
  jsAvg ((l.filter (fun d => decide (0 < d))).map (fun d => (d : ℚ)))

/-- First bucket range of §4.4: up to 24 hours. -/
def inRange0 (i : ℤ) : Bool := decide (i ≤ 24)

/-- Second bucket range of §4.4: more than 24 and up to 72 hours. -/
def inRange1 (i : ℤ) : Bool := decide (24 < i) && decide (i ≤ 72)

/-- Third bucket range of §4.4: more than 72 and up to 168 hours. -/
def inRange2 (i : ℤ) : Bool := decide (72 < i) && decide (i ≤ 168)

/-- Fourth bucket range of §4.4: more than 168 and up to 336 hours. -/
def inRange3 (i : ℤ) : Bool := decide (168 < i) && decide (i ≤ 336)

/-- Fifth bucket range of §4.4: more than 336 hours. -/
def inRange4 (i : ℤ) : Bool := decide (336 < i)

/-- Single-seizure, four-pain-records input separating the §4.3 correlation
formula from the risk scorer's: one seizure day, pain on four days, one of
them the seizure day. -/
def c1exSs : List SeizureRecord := [⟨"2025-01-01T08:00:00", 60, 8, false, false⟩]

/-- Pain records for the C1 separation input. -/
def c1exPs : List PainRecord :=
  [⟨"2025-01-01", some 5⟩, ⟨"2025-01-02", some 4⟩, ⟨"2025-01-03", some 4⟩, ⟨"2025-01-04", some 4⟩]

/-- One seizure and three pain records, one on the seizure day: the exact
correlation is 100/3, which the one-decimal output rounds to 33.3. -/
def c3exSs : List SeizureRecord := [⟨"2025-01-01T08:00:00", 60, 8, false, false⟩]

/-- Pain records for the C3 rounding input. -/
def c3exPs : List PainRecord :=
  [⟨"2025-01-01", some 5⟩, ⟨"2025-01-02", some 4⟩, ⟨"2025-01-03", some 4⟩]

/-- Scenario C of §8: seizure days 01-01, 01-02 and 01-05. -/
def scenCSs : List SeizureRecord :=
  [⟨"2025-01-01T08:00:00", 60, 8, false, false⟩,
   ⟨"2025-01-02T09:00:00", 60, 9, false, false⟩,
   ⟨"2025-01-05T10:00:00", 60, 10, false, false⟩]

/-- Scenario C of §8: pain 5 on 01-01 (a seizure day) and pain 3 on 01-03. -/
def scenCPs : List PainRecord := [⟨"2025-01-01", some 5⟩, ⟨"2025-01-03", some 3⟩]

/-- Two food-eaten events, one with duration 60 and one with the unknown
duration 0: the source averages both, the spec's filtered mean keeps only
the 60. -/
def c4exSs : List SeizureRecord :=
  [⟨"2025-01-01T08:00:00", 60, 8, false, true⟩, ⟨"2025-01-02T08:00:00", 0, 8, false, true⟩]

/-- A single seizure at hour 23: outside the spec's `[7,23)` daytime window
but inside the source's `hour <= 23` test. -/
def c7exSs : List SeizureRecord := [⟨"2025-01-01T23:30:00", 60, 23, false, false⟩]

/-- A single seizure with `food_eaten = true`: food fraction 100%, which the
spec says must trigger the skew indicator and the source never does. -/
def c8exSs : List SeizureRecord := [⟨"2025-01-01T08:00:00", 60, 8, false, true⟩]

/-- Rounding a whole zero gives zero. -/
theorem round1_zero : round1 0 = 0 := by
  unfold round1 jsRound
  norm_num

/-- The guarded average of an empty list is the defined zero default. -/
theorem jsAvg_of_length_zero (l : List ℚ) (h : l.length = 0) : jsAvg l = 0 := by
  simp [jsAvg, h]

/-- The population variance used by the duration-variability indicator is
non-negative. -/
theorem durationVariance_nonneg (ds : List ℤ) : 0 ≤ durationVariance ds := by
  unfold durationVariance
  apply div_nonneg
  · apply List.sum_nonneg
    intro x hx
    simp only [List.mem_map] at hx
    obtain ⟨d, _, rfl⟩ := hx
    positivity
  · positivity

/-- For a positive mean, the source's test `cv > 50` with
`cv = sqrt(variance) / mean * 100` over the reals is exactly the squared
comparison `mean^2 < 4 * variance` that `cvIndicator` decides. -/
theorem cv_gt50_iff_sq (m v : ℚ) (hm : 0 < m) :
    50 < Real.sqrt (v : ℝ) / (m : ℝ) * 100 ↔ m ^ 2 < 4 * v := by
  have hmR : (0 : ℝ) < (m : ℝ) := by exact_mod_cast hm
  have step1 : (50 : ℝ) < Real.sqrt (v : ℝ) / (m : ℝ) * 100 ↔
      (m : ℝ) / 2 < Real.sqrt (v : ℝ) := by
    rw [div_mul_eq_mul_div, lt_div_iff₀ hmR, div_lt_iff₀ (by norm_num : (0 : ℝ) < 2)]
    constructor <;> intro h <;> linarith
  have step2 : (m : ℝ) / 2 < Real.sqrt (v : ℝ) ↔ ((m : ℝ) / 2) ^ 2 < (v : ℝ) :=
    Real.lt_sqrt (by positivity)
  rw [step1, step2]
  constructor
  · intro h
    have hR : ((m : ℝ)) ^ 2 < 4 * (v : ℝ) := by nlinarith
    exact_mod_cast hR
  · intro h
    have hR : ((m : ℝ)) ^ 2 < 4 * (v : ℝ) := by exact_mod_cast h
    nlinarith

/-- Each integer interval satisfies exactly one of the five §4.4 bucket
ranges. -/
theorem range_exactly_one (i : ℤ) :
    ((if inRange0 i then 1 else 0) + (if inRange1 i then 1 else 0) +
     (if inRange2 i then 1 else 0) + (if inRange3 i then 1 else 0) +
     (if inRange4 i then 1 else 0) : ℕ) = 1 := by
  unfold inRange0 inRange1 inRange2 inRange3 inRange4
  simp only [Bool.and_eq_true, decide_eq_true_eq]
  split_ifs <;> omega

/-- The bucket fold counts, bucket by bucket, the intervals satisfying the
corresponding range predicate. -/
theorem bucketCounts_foldl (l : List ℤ) : ∀ acc : BucketCounts,
    l.foldl bucketStep acc =
      ⟨acc.h0to24 + l.countP inRange0, acc.d1to3 + l.countP inRange1,
       acc.d3to7 + l.countP inRange2, acc.w1to2 + l.countP inRange3,
       acc.w2plus + l.countP inRange4⟩ := by
  induction l with
  | nil => intro acc; simp
  | cons i t ih =>
    intro acc
    rw [List.foldl_cons, ih]
    unfold bucketStep
    simp only [List.countP_cons, inRange0, inRange1, inRange2, inRange3, inRange4,
      Bool.and_eq_true, decide_eq_true_eq]
    split_ifs <;> simp_all <;> omega

/-- `bucketCounts` as the five range counts. -/
theorem bucketCounts_eq_countP (l : List ℤ) :
    bucketCounts l =
      ⟨l.countP inRange0, l.countP inRange1, l.countP inRange2,
       l.countP inRange3, l.countP inRange4⟩ := by
  unfold bucketCounts
  rw [bucketCounts_foldl]
  simp

/-- The five range counts sum to the list length. -/
theorem countP_ranges_sum (l : List ℤ) :
    l.countP inRange0 + l.countP inRange1 + l.countP inRange2 +
      l.countP inRange3 + l.countP inRange4 = l.length := by
  induction l with
  | nil => simp
  | cons i t ih =>
    simp only [List.countP_cons, List.length_cons]
    have h := range_exactly_one i
    cases h0 : inRange0 i <;> cases h1 : inRange1 i <;> cases h2 : inRange2 i <;>
      cases h3 : inRange3 i <;> cases h4 : inRange4 i <;>
      simp [h0, h1, h2, h3, h4] at h ⊢ <;> omega

/-- C2 (confirmed): the risk score of `analyzePNESIndicators` is exactly the
sum of the fixed weights 20, 15, 12, 10, 8 of the indicators whose trigger
condition holds (and 0 under the empty-input early exit, where no indicator
is consulted); since the score lives in `ℕ` and each summand is bounded by
its weight, the score always lies in the closed range `[0, 65]` — no
indicator's absence subtracts points. -/
theorem c2_score_is_weighted_sum_in_range (ss : List SeizureRecord) (ps : List PainRecord) :
    ((analyzePNESIndicators ss ps).pnes_likelihood_score =
      if ss.length = 0 then 0 else
        (if painIndicator ss ps then 20 else 0) + (if daytimeIndicator ss then 15 else 0) +
        (if cvIndicator ss then 12 else 0) + (if foodIndicator ss then 10 else 0) +
        (if periodIndicator ss then 8 else 0))
    ∧ (analyzePNESIndicators ss ps).pnes_likelihood_score ≤ 65 := by
  constructor
  · unfold analyzePNESIndicators pnesScoreOf
    split <;> rfl
  · unfold analyzePNESIndicators pnesScoreOf
    split
    · simp
    · simp only []
      split_ifs <;> simp

/-- C5 (confirmed): for every list of valid (non-discarded) inter-seizure
intervals, the five bucket counters are exactly the counts of the five fixed
§4.4 ranges, their sum is exactly the number of valid intervals, every
interval satisfies exactly one range, and the engine's distribution payload
is the bucket count of its own valid interval list. -/
theorem c5_bucket_totality :
    (∀ l : List ℤ,
      (bucketCounts l).h0to24 + (bucketCounts l).d1to3 + (bucketCounts l).d3to7 +
        (bucketCounts l).w1to2 + (bucketCounts l).w2plus = l.length
      ∧ bucketCounts l =
          ⟨l.countP inRange0, l.countP inRange1, l.countP inRange2,
           l.countP inRange3, l.countP inRange4⟩)
    ∧ (∀ i : ℤ,
        ((if inRange0 i then 1 else 0) + (if inRange1 i then 1 else 0) +
         (if inRange2 i then 1 else 0) + (if inRange3 i then 1 else 0) +
         (if inRange4 i then 1 else 0) : ℕ) = 1)
    ∧ ∀ ss ps, (calculateMedicalInsights ss ps).inter_seizure_distribution =
        bucketCounts (seizureIntervals ss) := by
  refine ⟨fun l => ⟨?_, bucketCounts_eq_countP l⟩, range_exactly_one, fun ss ps => rfl⟩
  rw [bucketCounts_eq_countP l]
  exact countP_ranges_sum l

/-- C9 (code_bug): the claim says every timestamp is interpreted as a local,
timezone-naive value with no UTC conversion, and revision 2 indeed builds
`date + "T" + time` (no zone designator) and reads it with the naive
arithmetic of `parseLocalTime` — but the revision-1 record builder cited by
the claim appends `.000Z`, branding the very same CSV row as a UTC instant.
Evaluated at the failing input `Date = 2025-01-01, Time = 08:00:00`:
revision 1 produces a Z-designated string, revision 2 does not, and
revision 2's parse is exactly the plain naive date-time value
(day number 20089 since the epoch, at hour 8). -/
theorem c9_rev1_utc_designator_rev2_naive :
    mkTimestampRev1 "2025-01-01" "08:00:00" = "2025-01-01T08:00:00.000Z"
    ∧ hasUTCDesignator (mkTimestampRev1 "2025-01-01" "08:00:00") = true
    ∧ mkTimestampRev2 "2025-01-01" "08:00:00" = "2025-01-01T08:00:00"
    ∧ hasUTCDesignator (mkTimestampRev2 "2025-01-01" "08:00:00") = false
    ∧ daysFromCivil 2025 1 1 = 20089
    ∧ parseLocalTime (mkTimestampRev2 "2025-01-01" "08:00:00") =
        some (20089 * 86400000 + 8 * 3600000) := by
  refine ⟨rfl, by decide, rfl, by decide, by decide, by decide⟩

/-- C10 (confirmed): the `intervals` field of the payload is
`intervals.slice(0, 20)` — the first twenty valid intervals in chronological
order.  Hence with at most twenty valid intervals it contains all of them,
and with more than twenty it is the length-20 chronological prefix (the
earliest intervals, not the most recent ones). -/
theorem c10_intervals_field_is_first_twenty (ss : List SeizureRecord) (ps : List PainRecord) :
    (calculateMedicalInsights ss ps).inter_seizure_intervals.intervals =
      (seizureIntervals ss).take 20
    ∧ ((seizureIntervals ss).length ≤ 20 →
        (calculateMedicalInsights ss ps).inter_seizure_intervals.intervals = seizureIntervals ss)
    ∧ (20 < (seizureIntervals ss).length →
        ((calculateMedicalInsights ss ps).inter_seizure_intervals.intervals.length = 20
         ∧ ∃ rest, (calculateMedicalInsights ss ps).inter_seizure_intervals.intervals ++ rest =
             seizureIntervals ss)) := by
  refine ⟨rfl, fun h => List.take_of_length_le h, fun h => ⟨?_, ⟨(seizureIntervals ss).drop 20, ?_⟩⟩⟩
  · show ((seizureIntervals ss).take 20).length = 20
    rw [List.length_take]
    omega
  · show (seizureIntervals ss).take 20 ++ (seizureIntervals ss).drop 20 = seizureIntervals ss
    exact List.take_append_drop 20 (seizureIntervals ss)

/-- Witness for C10 at the concrete empty input: there are no valid
intervals, so the payload field is the whole (empty) interval list. -/
theorem c10_intervals_field_is_first_twenty_witness :
    (calculateMedicalInsights [] []).inter_seizure_intervals.intervals = seizureIntervals [] :=
  (c10_intervals_field_is_first_twenty [] []).2.1 (by decide)

/-- The pain/anxiety risk factor is listed exactly when its indicator fires. -/
theorem mem_riskFactors_pain (ss : List SeizureRecord) (ps : List PainRecord) :
    "High Anxiety/Pain Correlation" ∈ riskFactorsOf ss ps ↔ painIndicator ss ps = true := by
  unfold riskFactorsOf
  split_ifs <;> simp_all

/-- The daytime risk factor is listed exactly when its indicator fires. -/
theorem mem_riskFactors_daytime (ss : List SeizureRecord) (ps : List PainRecord) :
    "Predominantly Daytime Seizures" ∈ riskFactorsOf ss ps ↔ daytimeIndicator ss = true := by
  unfold riskFactorsOf
  split_ifs <;> simp_all

/-- The food-trigger risk factor is listed exactly when its indicator fires. -/
theorem mem_riskFactors_food (ss : List SeizureRecord) (ps : List PainRecord) :
    "Potential Environmental Trigger Pattern" ∈ riskFactorsOf ss ps ↔ foodIndicator ss = true := by
  unfold riskFactorsOf
  split_ifs <;> simp_all

/-- On a non-empty event collection `analyzePNESIndicators` takes the scoring
branch, so its score is `pnesScoreOf` and its risk factors are
`riskFactorsOf`. -/
theorem analyzePNES_nonempty (ss : List SeizureRecord) (ps : List PainRecord) (h : ss ≠ []) :
    analyzePNESIndicators ss ps =
      ⟨pnesScoreOf ss ps, classificationOf (pnesScoreOf ss ps), riskFactorsOf ss ps,
       recommendationsOf (classificationOf (pnesScoreOf ss ps))⟩ := by
  unfold analyzePNESIndicators
  rw [if_neg]
  simpa using h

/-- C1 (corrected): the pain/anxiety indicator's 20 points are contributed
exactly when pain records exist and
`(distinct seizure days carrying a pain record) / (number of seizure events) × 100 > 50`
— the numerator counts distinct seizure days (not pain records) and the
denominator is the seizure-event count (not the pain-record count of the
spec's §4.3 formula). -/
theorem c1_pain_indicator_amended (ss : List SeizureRecord) (ps : List PainRecord)
    (h : ss ≠ []) :
    (painIndicator ss ps = true ↔
      (0 < ps.length ∧ 50 < painCorrelationPercent ss ps))
    ∧ (analyzePNESIndicators ss ps).pnes_likelihood_score = pnesScoreOf ss ps
    ∧ ("High Anxiety/Pain Correlation" ∈ (analyzePNESIndicators ss ps).risk_factors ↔
        painIndicator ss ps = true) := by
  refine ⟨?_, ?_, ?_⟩
  · unfold painIndicator
    simp [Bool.and_eq_true, decide_eq_true_eq]
  · rw [analyzePNES_nonempty ss ps h]
  · rw [analyzePNES_nonempty ss ps h]
    exact mem_riskFactors_pain ss ps

/-- Witness for C1's amended theorem at the concrete separation input. -/
theorem c1_pain_indicator_amended_witness :
    (painIndicator c1exSs c1exPs = true ↔
      (0 < c1exPs.length ∧ 50 < painCorrelationPercent c1exSs c1exPs))
    ∧ (analyzePNESIndicators c1exSs c1exPs).pnes_likelihood_score = pnesScoreOf c1exSs c1exPs
    ∧ ("High Anxiety/Pain Correlation" ∈ (analyzePNESIndicators c1exSs c1exPs).risk_factors ↔
        painIndicator c1exSs c1exPs = true) :=
  c1_pain_indicator_amended c1exSs c1exPs (by decide)

/-- C1 counterexample: one seizure (day 2025-01-01) and four pain records,
one of them on the seizure day.  The §4.3 correlation percentage is 25, not
above 50, so the claim says the indicator must not add its points — yet the
source indicator fires (its own percentage is 100). -/
theorem c1_pain_indicator_counterexample :
    specCorrelationPercentage c1exSs c1exPs = 25
    ∧ ¬ (50 < specCorrelationPercentage c1exSs c1exPs)
    ∧ painCorrelationPercent c1exSs c1exPs = 100
    ∧ painIndicator c1exSs c1exPs = true := by
  have hlen : (painOnSeizureList c1exSs c1exPs).length = 1 := by decide
  have hc : commonPainSeizureDays c1exSs c1exPs = 1 := by decide
  have hs : c1exSs.length = 1 := by decide
  have hp : c1exPs.length = 4 := by decide
  have hspec : specCorrelationPercentage c1exSs c1exPs = 25 := by
    unfold specCorrelationPercentage
    rw [hlen, hp]
    norm_num
  have hsrc : painCorrelationPercent c1exSs c1exPs = 100 := by
    unfold painCorrelationPercent
    rw [hc, hs]
    norm_num
  refine ⟨hspec, by rw [hspec]; norm_num, hsrc, ?_⟩
  unfold painIndicator
  rw [hsrc, hp]
  norm_num

/-- C7 (corrected): the daytime indicator's 15 points are contributed
exactly when the fraction of events with effective hour in the closed range
`[7, 23]` exceeds 70% — hour 23 is included (source test `hour <= 23`), and
an `hour_of_day` of 0 is falsy in JS, silently becomes 12 and therefore also
counts as daytime. -/
theorem c7_daytime_indicator_amended (ss : List SeizureRecord) (ps : List PainRecord)
    (h : ss ≠ []) :
    (daytimeIndicator ss = true ↔ 70 < daytimePercent ss)
    ∧ daytimeCount ss =
        (ss.filter (fun s =>
          decide (s.hour_of_day = 0) ||
          (decide (7 ≤ s.hour_of_day) && decide (s.hour_of_day ≤ 23)))).length
    ∧ ("Predominantly Daytime Seizures" ∈ (analyzePNESIndicators ss ps).risk_factors ↔
        daytimeIndicator ss = true) := by
  refine ⟨?_, ?_, ?_⟩
  · unfold daytimeIndicator
    simp [decide_eq_true_eq]
  · unfold daytimeCount
    congr 1
    apply List.filter_congr
    intro s _
    unfold effectiveHour
    by_cases h0 : s.hour_of_day = 0 <;> simp [h0]
  · rw [analyzePNES_nonempty ss ps h]
    exact mem_riskFactors_daytime ss ps

/-- Witness for C7's amended theorem at the concrete hour-23 input. -/
theorem c7_daytime_indicator_amended_witness :
    (daytimeIndicator c7exSs = true ↔ 70 < daytimePercent c7exSs)
    ∧ daytimeCount c7exSs =
        (c7exSs.filter (fun s =>
          decide (s.hour_of_day = 0) ||
          (decide (7 ≤ s.hour_of_day) && decide (s.hour_of_day ≤ 23)))).length
    ∧ ("Predominantly Daytime Seizures" ∈ (analyzePNESIndicators c7exSs []).risk_factors ↔
        daytimeIndicator c7exSs = true) :=
  c7_daytime_indicator_amended c7exSs [] (by decide)

/-- C7 counterexample: a single seizure at hour 23.  Its hour lies outside
the spec's half-open window `[7, 23)`, the spec fraction is 0 and must not
trigger — yet the source counts hour 23 as daytime and the indicator fires
with 100%. -/
theorem c7_daytime_indicator_counterexample :
    specDaytimePercent c7exSs = 0
    ∧ ¬ (70 < specDaytimePercent c7exSs)
    ∧ daytimePercent c7exSs = 100
    ∧ daytimeIndicator c7exSs = true := by
  have hspec0 : (c7exSs.filter (fun s =>
      decide (7 ≤ s.hour_of_day) && decide (s.hour_of_day < 23))).length = 0 := by decide
  have hcnt : daytimeCount c7exSs = 1 := by decide
  have hs : c7exSs.length = 1 := by decide
  have hspec : specDaytimePercent c7exSs = 0 := by
    unfold specDaytimePercent
    rw [hspec0, hs]
    norm_num
  have hsrc : daytimePercent c7exSs = 100 := by
    unfold daytimePercent
    rw [hcnt, hs]
    norm_num
  refine ⟨hspec, by rw [hspec]; norm_num, hsrc, ?_⟩
  unfold daytimeIndicator
  rw [hsrc]
  norm_num

/-- C8 (corrected): the food-skew indicator's 10 points are contributed
exactly when BOTH partitions are non-empty and the food fraction is above
60% or below 40% — a 0% or 100% food fraction leaves one partition empty and
never triggers, contrary to the claim's "including 0% or 100%". -/
theorem c8_food_indicator_amended (ss : List SeizureRecord) (ps : List PainRecord)
    (h : ss ≠ []) :
    (foodIndicator ss = true ↔
      (0 < (withFoodList ss).length ∧ 0 < (withoutFoodList ss).length ∧
       (60 < foodTriggerPercent ss ∨ foodTriggerPercent ss < 40)))
    ∧ ("Potential Environmental Trigger Pattern" ∈ (analyzePNESIndicators ss ps).risk_factors ↔
        foodIndicator ss = true) := by
  refine ⟨?_, ?_⟩
  · unfold foodIndicator
    simp [Bool.and_eq_true, Bool.or_eq_true, decide_eq_true_eq, and_assoc]
  · rw [analyzePNES_nonempty ss ps h]
    exact mem_riskFactors_food ss ps

/-- Witness for C8's amended theorem at the concrete all-food input. -/
theorem c8_food_indicator_amended_witness :
    (foodIndicator c8exSs = true ↔
      (0 < (withFoodList c8exSs).length ∧ 0 < (withoutFoodList c8exSs).length ∧
       (60 < foodTriggerPercent c8exSs ∨ foodTriggerPercent c8exSs < 40)))
    ∧ ("Potential Environmental Trigger Pattern" ∈ (analyzePNESIndicators c8exSs []).risk_factors ↔
        foodIndicator c8exSs = true) :=
  c8_food_indicator_amended c8exSs [] (by decide)

/-- C8 counterexample: a single seizure with `food_eaten = true`.  The food
fraction is 100%, which per the claim (and the spec table read with its
"including 0% or 100%") must add the 10 points — yet the without-food
partition is empty, so the source indicator never fires. -/
theorem c8_food_indicator_counterexample :
    foodTriggerPercent c8exSs = 100
    ∧ specFoodSkewTrigger c8exSs = true
    ∧ foodIndicator c8exSs = false := by
  have hw : (withFoodList c8exSs).length = 1 := by decide
  have hs : c8exSs.length = 1 := by decide
  have hpct : foodTriggerPercent c8exSs = 100 := by
    unfold foodTriggerPercent
    rw [hw, hs]
    norm_num
  refine ⟨hpct, ?_, by decide⟩
  unfold specFoodSkewTrigger
  rw [hpct]
  norm_num

/-- C3 (corrected): the published `correlation_percentage` is the one-decimal
rounding (`Math.round(x*10)/10`) of
`(pain records on seizure days) / (total pain records) × 100`; with zero pain
records the `|| 1` denominator guard yields the defined 0 instead of a
division error; and on Scenario C's data the value is exactly 50% with mean
pain 5 on seizure days and 3 on non-seizure days (1 of the 2 pain records
falls on a seizure day). -/
theorem c3_correlation_amended (ss : List SeizureRecord) (ps : List PainRecord) :
    (calculateMedicalInsights ss ps).pain_correlation.correlation_percentage =
      round1 (((painOnSeizureList ss ps).length : ℚ) /
        (if ps.length = 0 then 1 else (ps.length : ℚ)) * 100)
    ∧ (calculateMedicalInsights ss []).pain_correlation.correlation_percentage = 0
    ∧ (calculateMedicalInsights scenCSs scenCPs).pain_correlation.correlation_percentage = 50
    ∧ (calculateMedicalInsights scenCSs scenCPs).pain_correlation.avg_pain_seizure_days = 5
    ∧ (calculateMedicalInsights scenCSs scenCPs).pain_correlation.avg_pain_non_seizure_days = 3
    ∧ (calculateMedicalInsights scenCSs scenCPs).pain_correlation.days_with_pain = 1 := by
  have hon : painOnSeizureList scenCSs scenCPs = [⟨"2025-01-01", some 5⟩] := by decide
  have hoff : painOffSeizureList scenCSs scenCPs = [⟨"2025-01-03", some 3⟩] := by decide
  have hplen : scenCPs.length = 2 := by decide
  refine ⟨rfl, ?_, ?_, ?_, ?_, ?_⟩
  · have hraw : correlationPercentageRaw ss [] = 0 := by
      unfold correlationPercentageRaw painOnSeizureList
      simp
    show round1 (correlationPercentageRaw ss []) = 0
    rw [hraw, round1_zero]
  · show round1 (correlationPercentageRaw scenCSs scenCPs) = 50
    unfold correlationPercentageRaw
    rw [hon, hplen]
    norm_num [round1, jsRound]
  · show round1 (avgPainSeizureDays scenCSs scenCPs) = 5
    unfold avgPainSeizureDays
    rw [hon]
    norm_num [jsAvg, painVal, round1, jsRound]
  · show round1 (avgPainNonSeizureDays scenCSs scenCPs) = 3
    unfold avgPainNonSeizureDays
    rw [hoff]
    norm_num [jsAvg, painVal, round1, jsRound]
  · show (painOnSeizureList scenCSs scenCPs).length = 1
    rw [hon]
    rfl

/-- Witness for C3's amended theorem at Scenario C's concrete input,
discharging the zero-pain conjunct at the empty pain collection. -/
theorem c3_correlation_amended_witness :
    (calculateMedicalInsights scenCSs []).pain_correlation.correlation_percentage = 0 :=
  (c3_correlation_amended scenCSs []).2.1

/-- C3 counterexample: one seizure and three pain records, one of them on
the seizure day.  The claim's exact formula gives 100/3 %, but the published
field is the rounded 33.3 — the two differ, so the field does not equal the
unrounded formula. -/
theorem c3_correlation_counterexample :
    (calculateMedicalInsights c3exSs c3exPs).pain_correlation.correlation_percentage = 333/10
    ∧ ((painOnSeizureList c3exSs c3exPs).length : ℚ) / (c3exPs.length : ℚ) * 100 = 100/3
    ∧ (333 : ℚ)/10 ≠ 100/3 := by
  have hlen : (painOnSeizureList c3exSs c3exPs).length = 1 := by decide
  have hp : c3exPs.length = 3 := by decide
  refine ⟨?_, ?_, by norm_num⟩
  · show round1 (correlationPercentageRaw c3exSs c3exPs) = 333/10
    unfold correlationPercentageRaw
    rw [hlen, hp]
    norm_num [round1, jsRound]
  · rw [hlen, hp]
    norm_num

/-- C4 (corrected): each of the six partition averages is the rounded mean
over ALL partition members, with `s.duration_seconds || 0` and
`parseFloat(p.Pain) || 0` turning unknown values into zeros that stay in
both the numerator and the denominator — non-positive and unparseable
entries are not excluded.  An empty partition still yields the defined 0
(last conjunct), and no input can crash the (total) computation. -/
theorem c4_averages_amended (ss : List SeizureRecord) (ps : List PainRecord) :
    (calculateMedicalInsights ss ps).food_impact.with_food_avg =
      round1 (jsAvg ((withFoodList ss).map (fun s => (s.duration_seconds : ℚ))))
    ∧ (calculateMedicalInsights ss ps).food_impact.without_food_avg =
      round1 (jsAvg ((withoutFoodList ss).map (fun s => (s.duration_seconds : ℚ))))
    ∧ (calculateMedicalInsights ss ps).menstrual_analysis.period_avg_duration =
      round1 (jsAvg ((periodList ss).map (fun s => (s.duration_seconds : ℚ))))
    ∧ (calculateMedicalInsights ss ps).menstrual_analysis.non_period_avg_duration =
      round1 (jsAvg ((nonPeriodList ss).map (fun s => (s.duration_seconds : ℚ))))
    ∧ (calculateMedicalInsights ss ps).pain_correlation.avg_pain_seizure_days =
      round1 (jsAvg ((painOnSeizureList ss ps).map (fun p => p.pain.getD 0)))
    ∧ (calculateMedicalInsights ss ps).pain_correlation.avg_pain_non_seizure_days =
      round1 (jsAvg ((painOffSeizureList ss ps).map (fun p => p.pain.getD 0)))
    ∧ ((withFoodList ss).length = 0 →
        (calculateMedicalInsights ss ps).food_impact.with_food_avg = 0) := by
  refine ⟨rfl, rfl, rfl, rfl, rfl, rfl, fun h => ?_⟩
  show round1 (withFoodAvg ss) = 0
  unfold withFoodAvg
  rw [jsAvg_of_length_zero _ (by rw [List.length_map]; exact h), round1_zero]

/-- Witness for C4's amended theorem: the hour-23 input has no food-eaten
events, so the with-food partition is empty and its average is the defined 0. -/
theorem c4_averages_amended_witness :
    (calculateMedicalInsights c7exSs []).food_impact.with_food_avg = 0 :=
  (c4_averages_amended c7exSs []).2.2.2.2.2.2 (by decide)

/-- C4 counterexample: two food-eaten seizures with durations 60 and 0 (the
unknown marker).  The claim says non-positive entries are excluded from both
numerator and denominator, which gives mean 60 — but the engine publishes
(60 + 0) / 2 = 30. -/
theorem c4_average_inclusion_counterexample :
    (calculateMedicalInsights c4exSs []).food_impact.with_food_avg = 30
    ∧ specPositiveMean ((withFoodList c4exSs).map (fun s => s.duration_seconds)) = 60
    ∧ (30 : ℚ) ≠ 60 := by
  have hw : withFoodList c4exSs = c4exSs := by decide
  have hd : (withFoodList c4exSs).map (fun s => s.duration_seconds) = [60, 0] := by decide
  have hf : (([60, 0] : List ℤ).filter (fun d => decide (0 < d))) = [60] := by decide
  refine ⟨?_, ?_, by norm_num⟩
  · show round1 (withFoodAvg c4exSs) = 30
    unfold withFoodAvg
    rw [hw]
    norm_num [c4exSs, jsAvg, round1, jsRound]
  · unfold specPositiveMean
    rw [hd, hf]
    norm_num [jsAvg]

/-- C6 (corrected): zero seizure events hit the explicit early exit of the
risk scorer — score 0, classification MINIMAL, empty risk-factor list and
the single insufficient-data recommendation, for every pain collection —
and the (total, exception-free) medical-insights payload is all-zero with
trend "similar", EXCEPT `period_percentage`: the unguarded
`periodSeizures.length / seizureRecords.length` is the JS float `0/0 = NaN`
(modelled `none`, serialised as `null`), not 0. -/
theorem c6_empty_input_amended (ps : List PainRecord) :
    analyzePNESIndicators [] ps =
      ⟨0, "MINIMAL", [], ["Insufficient data for analysis"]⟩
    ∧ calculateMedicalInsights [] [] =
      ⟨⟨0, 0, 0, 0, 0, "similar"⟩, ⟨0, 0, 0, 0, none⟩, ⟨0, 0, 0, 0⟩, ⟨0, 0, 0, 0, []⟩,
       ⟨0, 0, 0, 0, 0⟩⟩ := by
  constructor
  · rfl
  · unfold calculateMedicalInsights
    norm_num [withFoodAvg, withoutFoodAvg, periodAvg, nonPeriodAvg, withFoodList,
      withoutFoodList, periodList, nonPeriodList, trendOf, periodPercentageRaw, round1Opt,
      painOnSeizureList, painOffSeizureList, avgPainSeizureDays, avgPainNonSeizureDays,
      correlationPercentageRaw, seizureIntervals, sortByTimestamp, intervalsFrom, jsMin,
      jsMax, jsAvg, medianOf, sortAsc, bucketCounts, round1, jsRound,
      MedicalInsights.mk.injEq, FoodImpact.mk.injEq, MenstrualAnalysis.mk.injEq,
      PainCorrelation.mk.injEq, InterSeizureIntervals.mk.injEq, BucketCounts.mk.injEq]

/-- C6 counterexample: at the concrete empty input the menstrual summary's
`period_percentage` is `NaN` (`none`), not the zero the claim requires of
every summary field. -/
theorem c6_period_percentage_counterexample :
    (calculateMedicalInsights [] []).menstrual_analysis.period_percentage = none
    ∧ (calculateMedicalInsights [] []).menstrual_analysis.period_percentage ≠ some 0 := by
  constructor
  · rfl
  · simp [calculateMedicalInsights, round1Opt, periodPercentageRaw]

end ThorApi
